import Mathlib

/- Shallow embedding of `CloudSecretManagerBackend` from
`providers/google/src/airflow/providers/google/cloud/secrets/secret_manager.py`.

Naming note: Python attribute names ending in the word "prefix" are rendered
with the suffix `pfx` (`connections_prefix` becomes `connections_pfx`,
`variables_prefix` becomes `variables_pfx`, `config_prefix` becomes
`config_pfx`, the `path_prefix` argument becomes `path_pfx`); all other
names follow the source. Machinery external to the adapter (the credential
resolver `get_credentials_and_project_id`, the store itself) is abstracted
into explicit collaborator values passed to the embedded functions; the
key-file / scopes arguments, which the adapter forwards verbatim to the
resolver and never inspects, are absorbed into the resolver collaborator. -/

namespace SecretManagerSpec

/-- Opaque credential handle produced by the credential collaborator. -/
structure Credentials where
  token : String
deriving DecidableEq, Repr

/-- The store client object: it holds only the credentials it is constructed
with (`_SecretManagerClient(credentials=...)`). -/
structure SecretManagerClient where
  credentials : Credentials
deriving DecidableEq, Repr

/-- Characters allowed by `SECRET_ID_PATTERN = r"^[a-zA-Z0-9-_]*$"`. -/
def isSecretIdChar (c : Char) : Bool :=
  ('a' ≤ c && c ≤ 'z') || ('A' ≤ c && c ≤ 'Z') || ('0' ≤ c && c ≤ '9') || c == '-' || c == '_'

/-- Modelled from the spec: `_SecretManagerClient.is_valid_secret_name` lives in
`_internal_client/secret_manager_client.py`, which is not part of the sources
here; the spec states the naming invariant is a full match of the pattern
`^[a-zA-Z0-9-_]*$`, which `SECRET_ID_PATTERN` in the source file restates. -/
def is_valid_secret_name (s : String) : Bool :=
  s.data.all isSecretIdChar

/-- Modelled from the spec: `BaseSecretsBackend.build_path` is not part of the
sources here; the spec defines the SecretIdentifier as
prefix + separator + logical key. Argument order follows the call site
`self.build_path(path_prefix, secret_id, self.sep)`. -/
def build_path (path_pfx secret_id sep : String) : String :=
  path_pfx ++ sep ++ secret_id

/-- The `impersonation_chain` argument: a single account or an ordered chain. -/
inductive ImpersonationChain where
  | str (account : String)
  | seq (accounts : List String)
deriving DecidableEq, Repr

/-- Python truthiness of the `impersonation_chain` value (`if impersonation_chain:`):
an empty string or empty list is falsy. -/
def ImpersonationChain.truthy : ImpersonationChain → Bool
  | .str s => !(s == "")
  | .seq l => !l.isEmpty

/-- Modelled from the spec: `_get_target_principal_and_delegates` lives in
`utils/credentials_provider.py`, which is not part of the sources here; the
spec says a supplied chain is split into the final target principal (the last
account) and the ordered list of the preceding delegate accounts, and that a
chain given as a single string is that target with no delegates. -/
def _get_target_principal_and_delegates :
    ImpersonationChain → Option String × Option (List String)
  | .str s => (some s, none)
  | .seq l => (l.getLast?, some l.dropLast)

/-- The (target_principal, delegates) pair the constructor passes to the
credential collaborator: the split of the chain when one is supplied and
truthy, `(None, None)` otherwise. -/
def resolutionArgs : Option ImpersonationChain → Option String × Option (List String)
  | none => (none, none)
  | some ch => if ch.truthy then _get_target_principal_and_delegates ch else (none, none)

/-- Outcome of `get_credentials_and_project_id`: success with credentials and a
project id, or the caught failure (`DefaultCredentialsError` / `FileNotFoundError`). -/
inductive CredResolution where
  | ok (credentials : Credentials) (project_id : String)
  | notFound
deriving DecidableEq, Repr

/-- The credential collaborator, abstracted over the (target_principal, delegates)
arguments the adapter computes; the key-file and scope arguments are fixed
inside the collaborator value. -/
abbrev Resolver := Option String → Option (List String) → CredResolution

/-- The `AirflowException` raised on an invalid name configuration. -/
structure AirflowException where
  msg : String
deriving DecidableEq, Repr

/-- Keyword arguments of `CloudSecretManagerBackend.__init__` that the adapter
itself inspects. Field order: connections_pfx, variables_pfx, config_pfx,
project_id, sep, impersonation_chain. -/
structure InitArgs where
  connections_pfx : Option String
  variables_pfx : Option String
  config_pfx : Option String
  project_id : Option String
  sep : String
  impersonation_chain : Option ImpersonationChain
deriving DecidableEq, Repr

/-- The Python defaults of `__init__` (`project_id` defaults to the
`PROVIDE_PROJECT_ID` sentinel, i.e. `None`). -/
def defaultInitArgs : InitArgs :=
  ⟨some "airflow-connections", some "airflow-variables", some "airflow-config",
    none, "-", none⟩

/-- Python truthiness of an optional string (`if project_id:`). -/
def strTruthy : Option String → Bool
  | none => false
  | some s => !(s == "")

/-- The adapter state after `__init__`: the four name-building attributes,
plus `credentials` / `project_id`, each `none` when the corresponding Python
attribute was never assigned (credential resolution failed and, for
`project_id`, no explicit value was given), so that a later attribute access
fails. -/
structure Backend where
  connections_pfx : Option String
  variables_pfx : Option String
  config_pfx : Option String
  sep : String
  credentials : Option Credentials
  project_id : Option String
deriving DecidableEq, Repr

/-- The rendered message of the `AirflowException` raised by `__init__`. -/
def airflowValidationMsg : String :=
  "`connections_prefix`, `variables_prefix` and `sep` should follows that pattern ^[a-zA-Z0-9-_]*$"

/-- `self._is_valid_prefix_and_sep()`: validates `self.connections_prefix + self.sep`. -/
def _is_valid_prefix_and_sep (connections_pfx sep : String) : Bool :=
  is_valid_secret_name (connections_pfx ++ sep)

/-- The validation gate of `__init__`: only when `connections_prefix is not None`
is `_is_valid_prefix_and_sep` consulted. -/
def validationFails (a : InitArgs) : Bool :=
  match a.connections_pfx with
  | some cp => !(_is_valid_prefix_and_sep cp a.sep)
  | none => false

/-- The adapter state built from a credential-resolution outcome: on success
both attributes are assigned; on the caught failure neither is; afterwards
`if project_id: self.project_id = project_id` applies the explicit override. -/
def backendFromResolution (r : CredResolution) (a : InitArgs) : Backend :=
  match r with
  | .ok c pid =>
      ⟨a.connections_pfx, a.variables_pfx, a.config_pfx, a.sep, some c,
        if strTruthy a.project_id then a.project_id else some pid⟩
  | .notFound =>
      ⟨a.connections_pfx, a.variables_pfx, a.config_pfx, a.sep, none,
        if strTruthy a.project_id then a.project_id else none⟩

/-- `CloudSecretManagerBackend.__init__`: validation first (raising
`AirflowException`), then credential resolution with the computed
(target_principal, delegates), with `DefaultCredentialsError` and
`FileNotFoundError` caught, then the explicit project-id override. -/
def mkBackend (resolver : Resolver) (a : InitArgs) : Except AirflowException Backend :=
  if validationFails a then
    .error ⟨airflowValidationMsg⟩
  else
    .ok (backendFromResolution
      (resolver (resolutionArgs a.impersonation_chain).1 (resolutionArgs a.impersonation_chain).2) a)

/-- Whether construction completed without an exception. -/
def constructionSucceeds (r : Except AirflowException Backend) : Bool :=
  match r with
  | .ok _ => true
  | .error _ => false

/-- A Python error surfaced at lookup time by the embedding: accessing a never
assigned attribute (`self.credentials` / `self.project_id`). -/
inductive PyError where
  | attributeError
deriving DecidableEq, Repr

/-- The external secret store, observed through a client's credentials, the
secret id and the project id (`client.get_secret(secret_id, project_id)`). -/
structure StoreEnv where
  lookup : Credentials → String → String → Option String

/-- `_SecretManagerClient.get_secret` as a point lookup in the store. -/
def SecretManagerClient.get_secret (env : StoreEnv) (c : SecretManagerClient)
    (secret_id project_id : String) : Option String :=
  env.lookup c.credentials secret_id project_id

/-- The `client` property: builds a fresh `_SecretManagerClient` from
`self.credentials` on every access; fails when that attribute was never
assigned. -/
def Backend.client (b : Backend) : Except PyError SecretManagerClient :=
  match b.credentials with
  | none => .error .attributeError
  | some c => .ok ⟨c⟩

/-- `_get_secret`: builds the identifier with `build_path`, then accesses the
`client` property and calls `get_secret(secret_id, self.project_id)`. -/
def _get_secret (env : StoreEnv) (b : Backend) (path_pfx secret_id : String) :
    Except PyError (Option String) :=
  let sid := build_path path_pfx secret_id b.sep
  match Backend.client b with
  | .error e => .error e
  | .ok cl =>
      match b.project_id with
      | none => .error PyError.attributeError
      | some pid => .ok (SecretManagerClient.get_secret env cl sid pid)

/-- `get_conn_value`: returns `None` when `connections_prefix is None`. -/
def get_conn_value (env : StoreEnv) (b : Backend) (conn_id : String) :
    Except PyError (Option String) :=
  match b.connections_pfx with
  | none => .ok none
  | some p => _get_secret env b p conn_id

/-- `get_variable`: returns `None` when `variables_prefix is None`. -/
def get_variable (env : StoreEnv) (b : Backend) (key : String) :
    Except PyError (Option String) :=
  match b.variables_pfx with
  | none => .ok none
  | some p => _get_secret env b p key

/-- `get_config`: returns `None` when `config_prefix is None`. -/
def get_config (env : StoreEnv) (b : Backend) (key : String) :
    Except PyError (Option String) :=
  match b.config_pfx with
  | none => .ok none
  | some p => _get_secret env b p key

/-- `get_conn_value` as a state transformer on the adapter: the method body
contains no attribute assignment, so the returned state is the input state. -/
def get_conn_value_st (env : StoreEnv) (b : Backend) (conn_id : String) :
    Except PyError (Option String) × Backend :=
  (get_conn_value env b conn_id, b)

/-- `get_variable` as a state transformer on the adapter. -/
def get_variable_st (env : StoreEnv) (b : Backend) (key : String) :
    Except PyError (Option String) × Backend :=
  (get_variable env b key, b)

/-- `get_config` as a state transformer on the adapter. -/
def get_config_st (env : StoreEnv) (b : Backend) (key : String) :
    Except PyError (Option String) × Backend :=
  (get_config env b key, b)

/-- Concrete credentials used by the evaluation witnesses. -/
def sampleCreds : Credentials := ⟨"token-1"⟩

/-- A credential collaborator that always succeeds. -/
def sampleResolver : Resolver := fun _ _ => CredResolution.ok sampleCreds "cred-project"

/-- A credential collaborator that always fails with the caught condition. -/
def notFoundResolver : Resolver := fun _ _ => CredResolution.notFound

/-- A concrete store populated for the evaluation witnesses. -/
def sampleEnv : StoreEnv :=
  ⟨fun _ sid _ =>
    if sid = "airflow-connections-smtp_default" then some "smtp-secret"
    else if sid = "airflow-variables-hello" then some "world"
    else if sid = "airflow-config-api_key" then some "k123"
    else if sid = "bad!!hello" then some "odd-variable"
    else none⟩

/-- A fully resolved adapter with all three lookups enabled. -/
def sampleBackend : Backend :=
  ⟨some "airflow-connections", some "airflow-variables", some "airflow-config",
    "-", some sampleCreds, some "cred-project"⟩

/-- A fully resolved adapter with all three lookups disabled. -/
def disabledBackend : Backend :=
  ⟨none, none, none, "-", some sampleCreds, some "cred-project"⟩

/-- On a resolved adapter, `_get_secret` is exactly a store lookup at
prefix ++ sep ++ key under the resolved credentials and project id. -/
theorem _get_secret_resolved (env : StoreEnv) (b : Backend) (p k : String)
    (c : Credentials) (pid : String)
    (hc : b.credentials = some c) (hpid : b.project_id = some pid) :
    _get_secret env b p k = Except.ok (env.lookup c (p ++ b.sep ++ k) pid) := by
  simp [_get_secret, Backend.client, hc, hpid, SecretManagerClient.get_secret, build_path]

/-- `get_conn_value` on a resolved adapter with an enabled connections name
space is a store lookup at the built identifier. -/
theorem conn_lookup_resolved (env : StoreEnv) (b : Backend) (p k : String)
    (c : Credentials) (pid : String)
    (hpfx : b.connections_pfx = some p) (hc : b.credentials = some c)
    (hpid : b.project_id = some pid) :
    get_conn_value env b k = Except.ok (env.lookup c (p ++ b.sep ++ k) pid) := by
  rw [get_conn_value, hpfx]
  exact _get_secret_resolved env b p k c pid hc hpid

/-- `get_variable` on a resolved adapter with an enabled variables name space
is a store lookup at the built identifier. -/
theorem var_lookup_resolved (env : StoreEnv) (b : Backend) (p k : String)
    (c : Credentials) (pid : String)
    (hpfx : b.variables_pfx = some p) (hc : b.credentials = some c)
    (hpid : b.project_id = some pid) :
    get_variable env b k = Except.ok (env.lookup c (p ++ b.sep ++ k) pid) := by
  rw [get_variable, hpfx]
  exact _get_secret_resolved env b p k c pid hc hpid

/-- `get_config` on a resolved adapter with an enabled config name space is a
store lookup at the built identifier. -/
theorem config_lookup_resolved (env : StoreEnv) (b : Backend) (p k : String)
    (c : Credentials) (pid : String)
    (hpfx : b.config_pfx = some p) (hc : b.credentials = some c)
    (hpid : b.project_id = some pid) :
    get_config env b k = Except.ok (env.lookup c (p ++ b.sep ++ k) pid) := by
  rw [get_config, hpfx]
  exact _get_secret_resolved env b p k c pid hc hpid

/-- On a degraded adapter (credentials never assigned), `_get_secret` fails
with an attribute access error. -/
theorem _get_secret_degraded (env : StoreEnv) (b : Backend) (p k : String)
    (hc : b.credentials = none) :
    _get_secret env b p k = Except.error PyError.attributeError := by
  simp [_get_secret, Backend.client, hc]

/-- Claim C1: each lookup returns exactly the store's value when its own
name-space is enabled and the store (reached with the adapter's resolved
credentials and project id) holds a value at prefix+sep+key; when its
name-space is disabled it returns absent without error and independently of
the store's state. -/
theorem C1_lookup_exact_or_disabled (env : StoreEnv) (b : Backend) (key : String) :
    (∀ p c pid v, b.credentials = some c → b.project_id = some pid →
       b.connections_pfx = some p → env.lookup c (p ++ b.sep ++ key) pid = some v →
       get_conn_value env b key = Except.ok (some v)) ∧
    (∀ p c pid v, b.credentials = some c → b.project_id = some pid →
       b.variables_pfx = some p → env.lookup c (p ++ b.sep ++ key) pid = some v →
       get_variable env b key = Except.ok (some v)) ∧
    (∀ p c pid v, b.credentials = some c → b.project_id = some pid →
       b.config_pfx = some p → env.lookup c (p ++ b.sep ++ key) pid = some v →
       get_config env b key = Except.ok (some v)) ∧
    (b.connections_pfx = none → ∀ env2, get_conn_value env2 b key = Except.ok none) ∧
    (b.variables_pfx = none → ∀ env2, get_variable env2 b key = Except.ok none) ∧
    (b.config_pfx = none → ∀ env2, get_config env2 b key = Except.ok none) := by
  refine ⟨?_, ?_, ?_, ?_, ?_, ?_⟩
  · intro p c pid v hc hpid hpfx hs
    rw [conn_lookup_resolved env b p key c pid hpfx hc hpid, hs]
  · intro p c pid v hc hpid hpfx hs
    rw [var_lookup_resolved env b p key c pid hpfx hc hpid, hs]
  · intro p c pid v hc hpid hpfx hs
    rw [config_lookup_resolved env b p key c pid hpfx hc hpid, hs]
  · intro h env2
    rw [get_conn_value, h]
  · intro h env2
    rw [get_variable, h]
  · intro h env2
    rw [get_config, h]

/-- Witness for C1 at a concrete store and adapters: the enabled lookup
returns the stored value, the disabled lookup returns absent. -/
theorem C1_lookup_exact_or_disabled_witness :
    get_conn_value sampleEnv sampleBackend "smtp_default" = Except.ok (some "smtp-secret") ∧
    get_conn_value sampleEnv disabledBackend "smtp_default" = Except.ok none := by
  constructor
  · exact (C1_lookup_exact_or_disabled sampleEnv sampleBackend "smtp_default").1
      "airflow-connections" sampleCreds "cred-project" "smtp-secret" rfl rfl rfl (by decide)
  · exact (C1_lookup_exact_or_disabled sampleEnv disabledBackend "smtp_default").2.2.2.1 rfl sampleEnv

/-- Claim C2 counterexample: with variables_pfx = "bad!" (so that
"bad!" ++ "-" contains a character outside [a-zA-Z0-9-_]) and a valid
connections_pfx, construction nevertheless succeeds: the adapter only
validates connections_pfx ++ sep. -/
theorem C2_counterexample :
    is_valid_secret_name ("bad!" ++ "-") = false ∧
    constructionSucceeds (mkBackend sampleResolver
      ⟨some "airflow-connections", some "bad!", some "airflow-config", none, "-", none⟩) = true := by
  constructor
  · decide
  · decide

/-- Claim C2 (amended): construction raises the configuration error exactly
when connections_pfx is not None and connections_pfx ++ sep contains a
character outside [a-zA-Z0-9-_]; variables_pfx and config_pfx are never
validated, and when connections_pfx is None nothing is validated. -/
theorem C2_validation_scope (resolver : Resolver) (a : InitArgs) :
    (∀ cp, a.connections_pfx = some cp → is_valid_secret_name (cp ++ a.sep) = false →
       mkBackend resolver a = Except.error ⟨airflowValidationMsg⟩) ∧
    (∀ cp, a.connections_pfx = some cp → is_valid_secret_name (cp ++ a.sep) = true →
       constructionSucceeds (mkBackend resolver a) = true) ∧
    (a.connections_pfx = none → constructionSucceeds (mkBackend resolver a) = true) := by
  refine ⟨?_, ?_, ?_⟩
  · intro cp hcp hbad
    simp [mkBackend, validationFails, hcp, _is_valid_prefix_and_sep, hbad]
  · intro cp hcp hgood
    simp [mkBackend, validationFails, hcp, _is_valid_prefix_and_sep, hgood, constructionSucceeds]
  · intro h
    simp [mkBackend, validationFails, h, constructionSucceeds]

/-- Witness for the amended C2: an invalid connections_pfx raises, the default
configuration constructs. -/
theorem C2_validation_scope_witness :
    mkBackend sampleResolver ⟨some "bad!", some "airflow-variables", some "airflow-config", none, "-", none⟩ =
      Except.error ⟨airflowValidationMsg⟩ ∧
    constructionSucceeds (mkBackend sampleResolver defaultInitArgs) = true := by
  constructor
  · exact (C2_validation_scope sampleResolver
      ⟨some "bad!", some "airflow-variables", some "airflow-config", none, "-", none⟩).1
      "bad!" rfl (by decide)
  · exact (C2_validation_scope sampleResolver defaultInitArgs).2.1
      "airflow-connections" rfl (by decide)

/-- Claim C3: every lookup builds the identifier as prefix + sep + logical
key and hands exactly that string to the store client; in particular the
identifier built from "airflow-connections", "-" and "smtp_default" is
"airflow-connections-smtp_default". -/
theorem C3_secret_identifier (env : StoreEnv) (b : Backend) (p key : String)
    (c : Credentials) (pid : String)
    (hpfx : b.connections_pfx = some p) (hc : b.credentials = some c)
    (hpid : b.project_id = some pid) :
    build_path p key b.sep = p ++ b.sep ++ key ∧
    get_conn_value env b key = Except.ok (env.lookup c (p ++ b.sep ++ key) pid) ∧
    build_path "airflow-connections" "smtp_default" "-" = "airflow-connections-smtp_default" := by
  refine ⟨rfl, ?_, by decide⟩
  exact conn_lookup_resolved env b p key c pid hpfx hc hpid

/-- Witness for C3 at the concrete configuration of the claim. -/
theorem C3_secret_identifier_witness :
    build_path "airflow-connections" "smtp_default" "-" = "airflow-connections-smtp_default" ∧
    get_conn_value sampleEnv sampleBackend "smtp_default" =
      Except.ok (sampleEnv.lookup sampleCreds ("airflow-connections" ++ "-" ++ "smtp_default") "cred-project") := by
  have h := C3_secret_identifier sampleEnv sampleBackend "airflow-connections" "smtp_default"
    sampleCreds "cred-project" rfl rfl rfl
  exact ⟨h.2.2, h.2.1⟩

/-- Claim C4 counterexample: with credential resolution failing and the
connections name space disabled, construction completes and the subsequent
lookup `get_conn_value` does NOT fail: it returns absent without error. -/
theorem C4_counterexample :
    mkBackend notFoundResolver ⟨none, some "airflow-variables", some "airflow-config", none, "-", none⟩ =
      Except.ok ⟨none, some "airflow-variables", some "airflow-config", "-", none, none⟩ ∧
    get_conn_value sampleEnv ⟨none, some "airflow-variables", some "airflow-config", "-", none, none⟩ "any_conn" =
      Except.ok none := by
  exact ⟨rfl, rfl⟩

/-- Claim C4 (amended): when credential resolution fails with the caught
condition, construction still completes (given the name validation passes,
which is independent of credentials), the credentials attribute is never
assigned, and every subsequent lookup whose own name-space is enabled
deterministically fails at call time; a lookup whose name-space is disabled
still returns absent without error. -/
theorem C4_degraded_behavior (resolver : Resolver) (a : InitArgs)
    (env : StoreEnv) (key : String)
    (hres : resolver (resolutionArgs a.impersonation_chain).1
      (resolutionArgs a.impersonation_chain).2 = CredResolution.notFound)
    (hval : ∀ cp, a.connections_pfx = some cp → is_valid_secret_name (cp ++ a.sep) = true) :
    mkBackend resolver a = Except.ok (backendFromResolution CredResolution.notFound a) ∧
    (backendFromResolution CredResolution.notFound a).credentials = none ∧
    (∀ p, a.connections_pfx = some p →
       get_conn_value env (backendFromResolution CredResolution.notFound a) key =
         Except.error PyError.attributeError) ∧
    (∀ p, a.variables_pfx = some p →
       get_variable env (backendFromResolution CredResolution.notFound a) key =
         Except.error PyError.attributeError) ∧
    (∀ p, a.config_pfx = some p →
       get_config env (backendFromResolution CredResolution.notFound a) key =
         Except.error PyError.attributeError) ∧
    (a.connections_pfx = none →
       get_conn_value env (backendFromResolution CredResolution.notFound a) key =
         Except.ok none) := by
  have hvf : validationFails a = false := by
    unfold validationFails
    cases hcp : a.connections_pfx with
    | none => rfl
    | some cp =>
        simp [_is_valid_prefix_and_sep, hval cp hcp]
  have hcred : (backendFromResolution CredResolution.notFound a).credentials = none := by
    simp [backendFromResolution]
  refine ⟨?_, hcred, ?_, ?_, ?_, ?_⟩
  · simp [mkBackend, hvf, hres]
  · intro p hp
    rw [get_conn_value, show (backendFromResolution CredResolution.notFound a).connections_pfx = some p from by
      simpa [backendFromResolution] using hp]
    exact _get_secret_degraded env _ p key hcred
  · intro p hp
    rw [get_variable, show (backendFromResolution CredResolution.notFound a).variables_pfx = some p from by
      simpa [backendFromResolution] using hp]
    exact _get_secret_degraded env _ p key hcred
  · intro p hp
    rw [get_config, show (backendFromResolution CredResolution.notFound a).config_pfx = some p from by
      simpa [backendFromResolution] using hp]
    exact _get_secret_degraded env _ p key hcred
  · intro hp
    rw [get_conn_value, show (backendFromResolution CredResolution.notFound a).connections_pfx = none from by
      simpa [backendFromResolution] using hp]

/-- Witness for the amended C4: with the default configuration and failing
credential resolution, construction completes and an enabled lookup errors. -/
theorem C4_degraded_behavior_witness :
    mkBackend notFoundResolver defaultInitArgs =
      Except.ok (backendFromResolution CredResolution.notFound defaultInitArgs) ∧
    get_variable sampleEnv (backendFromResolution CredResolution.notFound defaultInitArgs) "hello" =
      Except.error PyError.attributeError := by
  have h := C4_degraded_behavior notFoundResolver defaultInitArgs sampleEnv "hello" rfl
    (by intro cp hcp
        have : cp = "airflow-connections" := by
          simpa [defaultInitArgs] using hcp.symm
        subst this
        decide)
  exact ⟨h.1, h.2.2.2.1 "airflow-variables" rfl⟩

/-- Claim C5: whenever every configured name-space, concatenated with the
separator, matches ^[a-zA-Z0-9-_]*$, construction succeeds without a
configuration error. -/
theorem C5_valid_construction (resolver : Resolver) (a : InitArgs)
    (h1 : ∀ p, a.connections_pfx = some p → is_valid_secret_name (p ++ a.sep) = true)
    (h2 : ∀ p, a.variables_pfx = some p → is_valid_secret_name (p ++ a.sep) = true)
    (h3 : ∀ p, a.config_pfx = some p → is_valid_secret_name (p ++ a.sep) = true) :
    constructionSucceeds (mkBackend resolver a) = true := by
  have hvf : validationFails a = false := by
    unfold validationFails
    cases hcp : a.connections_pfx with
    | none => rfl
    | some cp => simp [_is_valid_prefix_and_sep, h1 cp hcp]
  simp [mkBackend, hvf, constructionSucceeds]

/-- Witness for C5 at the default configuration. -/
theorem C5_valid_construction_witness :
    constructionSucceeds (mkBackend sampleResolver defaultInitArgs) = true := by
  refine C5_valid_construction sampleResolver defaultInitArgs ?_ ?_ ?_
  · intro p hp
    have : p = "airflow-connections" := by simpa [defaultInitArgs] using hp.symm
    subst this
    decide
  · intro p hp
    have : p = "airflow-variables" := by simpa [defaultInitArgs] using hp.symm
    subst this
    decide
  · intro p hp
    have : p = "airflow-config" := by simpa [defaultInitArgs] using hp.symm
    subst this
    decide

/-- Claim C6: a non-empty explicit project id supplied at construction becomes
the adapter's effective project id (overriding the resolver's), and every
lookup that reaches the store passes exactly this project id to the client. -/
theorem C6_project_override (resolver : Resolver) (a : InitArgs) (b : Backend)
    (p : String) (env : StoreEnv) (key : String) (c : Credentials)
    (hp : a.project_id = some p) (hne : p ≠ "")
    (hb : mkBackend resolver a = Except.ok b) :
    b.project_id = some p ∧
    (∀ pfx, b.credentials = some c → b.connections_pfx = some pfx →
       get_conn_value env b key = Except.ok (env.lookup c (build_path pfx key b.sep) p)) := by
  have htr : strTruthy a.project_id = true := by
    rw [hp]
    simp [strTruthy, hne]
  have hb2 : backendFromResolution
      (resolver (resolutionArgs a.impersonation_chain).1 (resolutionArgs a.impersonation_chain).2) a = b := by
    by_cases hv : validationFails a
    · simp [mkBackend, hv] at hb
    · simpa [mkBackend, hv] using hb
  have hpid : b.project_id = some p := by
    rw [← hb2]
    cases resolver (resolutionArgs a.impersonation_chain).1 (resolutionArgs a.impersonation_chain).2 with
    | ok c0 pid0 => simp [backendFromResolution, hp, strTruthy, hne]
    | notFound => simp [backendFromResolution, hp, strTruthy, hne]
  refine ⟨hpid, ?_⟩
  intro pfx hc hpfx
  exact conn_lookup_resolved env b pfx key c p hpfx hc hpid

/-- Witness for C6: an explicit project id "explicit-project" overrides the
resolver's "cred-project". -/
theorem C6_project_override_witness :
    (backendFromResolution (CredResolution.ok sampleCreds "cred-project")
      ⟨some "airflow-connections", some "airflow-variables", some "airflow-config",
        some "explicit-project", "-", none⟩).project_id = some "explicit-project" := by
  exact (C6_project_override sampleResolver
    ⟨some "airflow-connections", some "airflow-variables", some "airflow-config",
      some "explicit-project", "-", none⟩
    (backendFromResolution (CredResolution.ok sampleCreds "cred-project")
      ⟨some "airflow-connections", some "airflow-variables", some "airflow-config",
        some "explicit-project", "-", none⟩)
    "explicit-project" sampleEnv "k" sampleCreds rfl (by decide) rfl).1

/-- Claim C7: a supplied impersonation chain [A, B, C] is split into the
target principal C and the ordered delegate list [A, B]; with no chain both
are absent; and the constructor consults the credential collaborator at
exactly the pair computed by `resolutionArgs`. -/
theorem C7_impersonation_split (A B C : String) (resolver : Resolver) (a : InitArgs)
    (hval : validationFails a = false) :
    resolutionArgs (some (ImpersonationChain.seq [A, B, C])) = (some C, some [A, B]) ∧
    resolutionArgs none = (none, none) ∧
    mkBackend resolver a = Except.ok (backendFromResolution
      (resolver (resolutionArgs a.impersonation_chain).1
        (resolutionArgs a.impersonation_chain).2) a) := by
  refine ⟨rfl, rfl, ?_⟩
  simp [mkBackend, hval]

/-- Witness for C7 at a concrete three-account chain. -/
theorem C7_impersonation_split_witness :
    resolutionArgs (some (ImpersonationChain.seq ["acc-a", "acc-b", "acc-c"])) =
      (some "acc-c", some ["acc-a", "acc-b"]) := by
  exact (C7_impersonation_split "acc-a" "acc-b" "acc-c" sampleResolver defaultInitArgs (by decide)).1

/-- Claim C8: each lookup, run as a state transformer on the adapter, leaves
every field of the adapter unchanged, and running the same lookup twice with
the store unchanged yields the same result both times. -/
theorem C8_lookup_idempotent_no_mutation (env : StoreEnv) (b : Backend) (k : String) :
    (get_conn_value_st env b k).2 = b ∧
    (get_conn_value_st env (get_conn_value_st env b k).2 k).1 = (get_conn_value_st env b k).1 ∧
    (get_variable_st env b k).2 = b ∧
    (get_variable_st env (get_variable_st env b k).2 k).1 = (get_variable_st env b k).1 ∧
    (get_config_st env b k).2 = b ∧
    (get_config_st env (get_config_st env b k).2 k).1 = (get_config_st env b k).1 :=
  ⟨rfl, rfl, rfl, rfl, rfl, rfl⟩

/-- Claim C9: the `client` property yields a client holding exactly the
adapter's resolved credentials; it depends on the credentials alone (any
adapter with the same credentials gets the same client); and `_get_secret`
goes through a client built from the credentials at call time, so no client
object lives in the adapter's state. -/
theorem C9_client_fresh_per_lookup (b b2 : Backend) (c : Credentials)
    (env : StoreEnv) (p k pid : String)
    (hc : b.credentials = some c) :
    Backend.client b = Except.ok ⟨c⟩ ∧
    (b2.credentials = b.credentials → Backend.client b2 = Backend.client b) ∧
    (b.project_id = some pid →
       _get_secret env b p k =
         Except.ok (SecretManagerClient.get_secret env ⟨c⟩ (build_path p k b.sep) pid)) := by
  refine ⟨?_, ?_, ?_⟩
  · rw [Backend.client, hc]
  · intro h2
    rw [Backend.client, Backend.client, h2]
  · intro hpid
    exact _get_secret_resolved env b p k c pid hc hpid

/-- Witness for C9 at the concrete resolved adapter. -/
theorem C9_client_fresh_per_lookup_witness :
    Backend.client sampleBackend = Except.ok ⟨sampleCreds⟩ ∧
    _get_secret sampleEnv sampleBackend "airflow-variables" "hello" =
      Except.ok (SecretManagerClient.get_secret sampleEnv ⟨sampleCreds⟩
        (build_path "airflow-variables" "hello" "-") "cred-project") := by
  have h := C9_client_fresh_per_lookup sampleBackend sampleBackend sampleCreds
    sampleEnv "airflow-variables" "hello" "cred-project" rfl
  exact ⟨h.1, h.2.2 rfl⟩

/-- Claim C10: with connections_pfx disabled (None), no naming validation
happens at construction: it succeeds for every separator and every
variables/config name-space, and the subsequent `get_variable` / `get_config`
calls build and send the raw identifier prefix ++ sep ++ key to the store,
pattern-valid or not. -/
theorem C10_no_validation_when_conn_disabled (resolver : Resolver) (a : InitArgs)
    (env : StoreEnv) (key : String) (b : Backend) (c : Credentials) (pid : String)
    (h : a.connections_pfx = none) :
    constructionSucceeds (mkBackend resolver a) = true ∧
    (mkBackend resolver a = Except.ok b → b.credentials = some c → b.project_id = some pid →
      (∀ vp, b.variables_pfx = some vp →
         get_variable env b key = Except.ok (env.lookup c (vp ++ b.sep ++ key) pid)) ∧
      (∀ cp, b.config_pfx = some cp →
         get_config env b key = Except.ok (env.lookup c (cp ++ b.sep ++ key) pid))) := by
  constructor
  · simp [mkBackend, validationFails, h, constructionSucceeds]
  · intro hb hc hpid
    constructor
    · intro vp hvp
      exact var_lookup_resolved env b vp key c pid hvp hc hpid
    · intro cp hcp
      exact config_lookup_resolved env b cp key c pid hcp hc hpid

/-- Witness for C10 at a configuration whose separator "!" and variables
name-space "bad!" violate the naming pattern: construction succeeds and
`get_variable` sends the pattern-violating identifier "bad!!hello". -/
theorem C10_no_validation_when_conn_disabled_witness :
    is_valid_secret_name ("bad!" ++ "!" ++ "hello") = false ∧
    constructionSucceeds (mkBackend sampleResolver
      ⟨none, some "bad!", some "airflow-config", none, "!", none⟩) = true ∧
    get_variable sampleEnv (backendFromResolution (CredResolution.ok sampleCreds "cred-project")
      ⟨none, some "bad!", some "airflow-config", none, "!", none⟩) "hello" =
      Except.ok (some "odd-variable") := by
  have h := C10_no_validation_when_conn_disabled sampleResolver
    ⟨none, some "bad!", some "airflow-config", none, "!", none⟩ sampleEnv "hello"
    (backendFromResolution (CredResolution.ok sampleCreds "cred-project")
      ⟨none, some "bad!", some "airflow-config", none, "!", none⟩)
    sampleCreds "cred-project" rfl
  refine ⟨by decide, h.1, ?_⟩
  have h2 := (h.2 rfl rfl rfl).1 "bad!" rfl
  rw [h2]
  rfl

end SecretManagerSpec
